import Mathlib

/-
Verification of the XEO score-prediction engine.

Shallow embedding of the heuristic scoring core found in
backend/src/engine/feature_extractor.py, backend/src/engine/weighted_scorer.py
and backend/src/services/score_predictor.py, as reproduced verbatim in the
implementation plan of the corpus.  Numeric values are modelled with rational
numbers, except where the source takes a square root (engagement consistency),
which is modelled with a real number.
-/

namespace XEO

/-- Media type tag attached to a post (image, video or gif). -/
inductive MediaType where
  | image
  | video
  | gif
deriving DecidableEq, Repr

/-- Structural features extracted from one post
(dataclass PostFeatures in feature_extractor.py). -/
structure PostFeatures where
  char_count : ℕ
  word_count : ℕ
  sentence_count : ℕ
  has_question : Bool
  has_cta : Bool
  has_emoji : Bool
  emoji_count : ℕ
  has_media : Bool
  media_type : Option MediaType
  hashtag_count : ℕ
  mention_count : ℕ
  has_url : Bool
  is_thread_starter : Bool
  is_quote : Bool
deriving DecidableEq, Repr

/-- Score for optimal length (70 to 200 chars is optimal); the property
optimal_length of PostFeatures in feature_extractor.py. -/
def PostFeatures.optimal_length (f : PostFeatures) : ℚ :=
  if 70 ≤ f.char_count ∧ f.char_count ≤ 200 then 1
  else if f.char_count < 70 then (f.char_count : ℚ) / 70
  else max 0.5 (1 - ((f.char_count : ℚ) - 200) / 280)

/-- Aggregate features of a user profile
(dataclass ProfileFeatures in feature_extractor.py).
The engagement_consistency field is a real number because the source computes
it through a square root; every other numeric field is rational. -/
structure ProfileFeatures where
  username : String
  tweet_count : ℕ
  avg_engagement_rate : ℚ
  avg_likes : ℚ
  avg_retweets : ℚ
  avg_replies : ℚ
  avg_views : ℚ
  retweet_ratio : ℚ
  quote_ratio : ℚ
  media_ratio : ℚ
  engagement_consistency : ℝ

/-- Predicted probabilities for each of the 14 action types
(dataclass ActionProbabilities in weighted_scorer.py). -/
structure ActionProbabilities where
  p_favorite : ℚ := 0
  p_reply : ℚ := 0
  p_repost : ℚ := 0
  p_quote : ℚ := 0
  p_click : ℚ := 0
  p_profile_click : ℚ := 0
  p_share : ℚ := 0
  p_dwell : ℚ := 0
  p_video_view : ℚ := 0
  p_follow_author : ℚ := 0
  p_not_interested : ℚ := 0
  p_block_author : ℚ := 0
  p_mute_author : ℚ := 0
  p_report : ℚ := 0
deriving DecidableEq, Repr

/-- The five published dimensions
(dataclass PentagonScores in weighted_scorer.py). -/
structure PentagonScores where
  reach : ℚ
  engagement : ℚ
  virality : ℚ
  quality : ℚ
  longevity : ℚ
deriving DecidableEq, Repr

/-- Overall score: the weighted average over the five dimensions with the
fixed weight table of the source (property overall of PentagonScores). -/
def PentagonScores.overall (s : PentagonScores) : ℚ :=
  s.reach * 0.25 + s.engagement * 0.25 + s.virality * 0.20 +
    s.quality * 0.15 + s.longevity * 0.15

/-- Normalisation used by calc_dimension inside
WeightedScorer.calculate_scores: scale by 200 and clamp into 0 to 100. -/
def normalizeScore (s : ℚ) : ℚ := min 100 (max 0 (s * 200))

/-- WeightedScorer.calculate_scores: each dimension is the weighted sum of
action probabilities under the SCORE_WEIGHTS table, scaled and clamped by
normalizeScore; quality additionally gets the fixed baseline of 50 added
after the clamp. -/
def calculate_scores (p : ActionProbabilities) : PentagonScores where
  reach := normalizeScore
    (p.p_click * 0.4 + p.p_profile_click * 0.3 + p.p_dwell * 0.3)
  engagement := normalizeScore
    (p.p_favorite * 0.35 + p.p_reply * 0.35 + p.p_quote * 0.15 +
      p.p_not_interested * (-0.15))
  virality := normalizeScore
    (p.p_repost * 0.4 + p.p_quote * 0.3 + p.p_share * 0.3)
  quality := normalizeScore
    (p.p_favorite * 0.25 + p.p_dwell * 0.25 + p.p_not_interested * (-0.2) +
      p.p_block_author * (-0.15) + p.p_mute_author * (-0.1) +
      p.p_report * (-0.3)) + 50
  longevity := normalizeScore
    (p.p_dwell * 0.3 + p.p_video_view * 0.25 + p.p_follow_author * 0.25 +
      p.p_favorite * 0.2)

/-- Name of one of the 14 actions, used as a key of a context boost map
(the Python source keys its boost dict with the field names of
ActionProbabilities). -/
inductive ActionName where
  | p_favorite
  | p_reply
  | p_repost
  | p_quote
  | p_click
  | p_profile_click
  | p_share
  | p_dwell
  | p_video_view
  | p_follow_author
  | p_not_interested
  | p_block_author
  | p_mute_author
  | p_report
deriving DecidableEq, Repr

/-- A context boost map: a finite dict from action names to rational deltas,
modelled as a function returning none for absent keys. -/
def BoostMap : Type := ActionName → Option ℚ

/-- The empty boost map (no key present); stands for the Python None or
empty dict, both of which leave probabilities unchanged. -/
def noBoost : BoostMap := fun _ => none

/-- Insert or overwrite one key of a boost map (dict item assignment). -/
def setBoost (m : BoostMap) (a : ActionName) (v : ℚ) : BoostMap :=
  fun b => if b = a then some v else m b

/-- Read a key of a boost map with default 0 (dict.get(key, 0)). -/
def getBoost (m : BoostMap) (a : ActionName) : ℚ := (m a).getD 0

/-- Scale a probability by (1 + boost) when the action name is present in
the boost map, as done in the context-boost loop of
WeightedScorer.estimate_probabilities. -/
def applyBoost (m : BoostMap) (a : ActionName) (v : ℚ) : ℚ :=
  match m a with
  | some b => v * (1 + b)
  | none => v

/-- Clamp one value into the unit interval
(max(0.0, min(1.0, value)) in the source). -/
def clamp01 (v : ℚ) : ℚ := max 0 (min 1 v)

/-- The final loop of WeightedScorer.estimate_probabilities: clamp every
field of the probability record into the unit interval. -/
def clampAll (p : ActionProbabilities) : ActionProbabilities where
  p_favorite := clamp01 p.p_favorite
  p_reply := clamp01 p.p_reply
  p_repost := clamp01 p.p_repost
  p_quote := clamp01 p.p_quote
  p_click := clamp01 p.p_click
  p_profile_click := clamp01 p.p_profile_click
  p_share := clamp01 p.p_share
  p_dwell := clamp01 p.p_dwell
  p_video_view := clamp01 p.p_video_view
  p_follow_author := clamp01 p.p_follow_author
  p_not_interested := clamp01 p.p_not_interested
  p_block_author := clamp01 p.p_block_author
  p_mute_author := clamp01 p.p_mute_author
  p_report := clamp01 p.p_report

/-- The context-boost loop of WeightedScorer.estimate_probabilities: every
field whose name is a key of the boost map is multiplied by (1 + boost). -/
def applyContextBoost (m : BoostMap) (p : ActionProbabilities) :
    ActionProbabilities where
  p_favorite := applyBoost m ActionName.p_favorite p.p_favorite
  p_reply := applyBoost m ActionName.p_reply p.p_reply
  p_repost := applyBoost m ActionName.p_repost p.p_repost
  p_quote := applyBoost m ActionName.p_quote p.p_quote
  p_click := applyBoost m ActionName.p_click p.p_click
  p_profile_click := applyBoost m ActionName.p_profile_click p.p_profile_click
  p_share := applyBoost m ActionName.p_share p.p_share
  p_dwell := applyBoost m ActionName.p_dwell p.p_dwell
  p_video_view := applyBoost m ActionName.p_video_view p.p_video_view
  p_follow_author := applyBoost m ActionName.p_follow_author p.p_follow_author
  p_not_interested :=
    applyBoost m ActionName.p_not_interested p.p_not_interested
  p_block_author := applyBoost m ActionName.p_block_author p.p_block_author
  p_mute_author := applyBoost m ActionName.p_mute_author p.p_mute_author
  p_report := applyBoost m ActionName.p_report p.p_report

/-- Body of WeightedScorer.estimate_probabilities before the final clamp:
profile-seeded and constant base probabilities, followed by the additive
feature impacts of the FEATURE_IMPACTS table applied in source order,
followed by the multiplicative context boost. -/
def estimateRaw (pf : PostFeatures) (prof : ProfileFeatures)
    (context_boost : BoostMap) : ActionProbabilities :=
  let base_engagement := prof.avg_engagement_rate
  let p0 : ActionProbabilities :=
    { p_favorite := base_engagement * 0.6
      p_reply := base_engagement * 0.15
      p_repost := base_engagement * 0.15
      p_quote := base_engagement * 0.05
      p_click := 0.20
      p_profile_click := 0.10
      p_share := base_engagement * 0.05
      p_dwell := 0.30
      p_video_view := 0.0
      p_follow_author := 0.005
      p_not_interested := 0.05
      p_block_author := 0.001
      p_mute_author := 0.002
      p_report := 0.0001 }
  let p1 := if pf.has_question then
      { p0 with p_reply := p0.p_reply + 0.15, p_favorite := p0.p_favorite + 0.05 }
    else p0
  let p2 := if pf.has_cta then
      { p1 with p_reply := p1.p_reply + 0.10, p_click := p1.p_click + 0.08 }
    else p1
  let p3 := if pf.has_emoji then
      { p2 with p_favorite := p2.p_favorite + 0.05, p_dwell := p2.p_dwell + 0.03 }
    else p2
  let p4 := if pf.has_media then
      let q := { p3 with p_click := p3.p_click + 0.20,
                         p_dwell := p3.p_dwell + 0.15,
                         p_repost := p3.p_repost + 0.10 }
      if pf.media_type = some MediaType.video then
        { q with p_video_view := 0.50, p_dwell := q.p_dwell + 0.25 }
      else q
    else p3
  let length_score := pf.optimal_length
  let p5 := { p4 with p_dwell := p4.p_dwell + 0.10 * length_score,
                      p_favorite := p4.p_favorite + 0.05 * length_score }
  let p6 := if 0 < pf.hashtag_count then
      { p5 with p_click := p5.p_click + 0.03 * (min pf.hashtag_count 3 : ℕ) }
    else p5
  let p7 := if pf.is_quote then
      { p6 with p_quote := p6.p_quote - 0.10, p_repost := p6.p_repost + 0.05 }
    else p6
  applyContextBoost context_boost p7

/-- WeightedScorer.estimate_probabilities: raw heuristic estimate followed
by the clamp of every field into the unit interval. -/
def estimate_probabilities (pf : PostFeatures) (prof : ProfileFeatures)
    (context_boost : BoostMap) : ActionProbabilities :=
  clampAll (estimateRaw pf prof context_boost)

/-- WeightedScorer.analyze_post: estimate the probabilities, then compute
the pentagon scores from them. -/
def analyze_post (pf : PostFeatures) (prof : ProfileFeatures)
    (context_boost : BoostMap) : PentagonScores × ActionProbabilities :=
  let probs := estimate_probabilities pf prof context_boost
  (calculate_scores probs, probs)

/-- Modelled from the spec: one fetched post of the upstream profile or
target-post provider (class TweetData of sela_api_client.py, whose source is
not in the corpus; fields are those used by the engine and its tests).  The
posted_at timestamp is represented by the age of the post in minutes at
analysis time, none when no timestamp was recorded. -/
structure TweetData where
  tweet_id : String
  username : String
  content : String
  likes_count : ℕ
  retweets_count : ℕ
  replies_count : ℕ
  views_count : ℕ
  is_retweet : Bool := false
  is_quote : Bool := false
  has_media : Bool := false
  age_minutes : Option ℚ := none

/-- Modelled from the spec: per-post engagement rate
(likes + reposts + replies) / views, guarded against division by zero
(property engagement_rate of TweetData in sela_api_client.py, not in the
corpus). -/
def TweetData.engagement_rate (t : TweetData) : ℚ :=
  if t.views_count = 0 then 0
  else ((t.likes_count : ℚ) + t.retweets_count + t.replies_count) / t.views_count

/-- Modelled from the spec: the profile payload of the upstream provider
(class ProfileData of sela_api_client.py, not in the corpus). -/
structure ProfileData where
  username : String
  tweets : List TweetData

/-- Modelled from the spec: mean like count over the fetched history
(property avg_likes of ProfileData, not in the corpus; the concrete
scenario of the corpus tests fixes it as the arithmetic mean). -/
def ProfileData.avg_likes (p : ProfileData) : ℚ :=
  if p.tweets.isEmpty then 0
  else (p.tweets.map (fun t => (t.likes_count : ℚ))).sum / p.tweets.length

/-- Modelled from the spec: mean repost count over the fetched history. -/
def ProfileData.avg_retweets (p : ProfileData) : ℚ :=
  if p.tweets.isEmpty then 0
  else (p.tweets.map (fun t => (t.retweets_count : ℚ))).sum / p.tweets.length

/-- Modelled from the spec: mean reply count over the fetched history. -/
def ProfileData.avg_replies (p : ProfileData) : ℚ :=
  if p.tweets.isEmpty then 0
  else (p.tweets.map (fun t => (t.replies_count : ℚ))).sum / p.tweets.length

/-- Modelled from the spec: mean view count over the fetched history. -/
def ProfileData.avg_views (p : ProfileData) : ℚ :=
  if p.tweets.isEmpty then 0
  else (p.tweets.map (fun t => (t.views_count : ℚ))).sum / p.tweets.length

/-- Modelled from the spec: fraction of the history that is a repost. -/
def ProfileData.retweet_ratio (p : ProfileData) : ℚ :=
  if p.tweets.isEmpty then 0
  else ((p.tweets.filter (fun t => t.is_retweet)).length : ℚ) / p.tweets.length

/-- Modelled from the spec: fraction of the history that is a quote. -/
def ProfileData.quote_ratio (p : ProfileData) : ℚ :=
  if p.tweets.isEmpty then 0
  else ((p.tweets.filter (fun t => t.is_quote)).length : ℚ) / p.tweets.length

/-- Modelled from the spec: fraction of the history that carries media. -/
def ProfileData.media_ratio (p : ProfileData) : ℚ :=
  if p.tweets.isEmpty then 0
  else ((p.tweets.filter (fun t => t.has_media)).length : ℚ) / p.tweets.length

/-- The list of per-post engagement rates of a fetched history, as built by
extract_profile_features in feature_extractor.py. -/
def engagement_rates (p : ProfileData) : List ℚ :=
  p.tweets.map TweetData.engagement_rate

/-- Mean engagement rate over the fetched history
(avg_engagement in extract_profile_features). -/
def avg_engagement (p : ProfileData) : ℚ :=
  (engagement_rates p).sum / (engagement_rates p).length

/-- Population variance of the engagement rates around their mean
(variance in extract_profile_features). -/
def engagement_variance (p : ProfileData) : ℚ :=
  ((engagement_rates p).map (fun r => (r - avg_engagement p) ^ 2)).sum /
    (engagement_rates p).length

/-- extract_profile_features of feature_extractor.py: the all-zero record on
an empty history, otherwise the aggregate features; consistency is
1 / (1 + stddev) of the engagement rates when the history holds more than
one post, and 1 otherwise. -/
noncomputable def extract_profile_features (p : ProfileData) : ProfileFeatures :=
  if p.tweets.isEmpty then
    { username := p.username
      tweet_count := 0
      avg_engagement_rate := 0
      avg_likes := 0
      avg_retweets := 0
      avg_replies := 0
      avg_views := 0
      retweet_ratio := 0
      quote_ratio := 0
      media_ratio := 0
      engagement_consistency := 0 }
  else
    let consistency : ℝ :=
      if 1 < (engagement_rates p).length then
        1 / (1 + Real.sqrt ((engagement_variance p : ℚ) : ℝ))
      else 1
    { username := p.username
      tweet_count := p.tweets.length
      avg_engagement_rate := avg_engagement p
      avg_likes := p.avg_likes
      avg_retweets := p.avg_retweets
      avg_replies := p.avg_replies
      avg_views := p.avg_views
      retweet_ratio := p.retweet_ratio
      quote_ratio := p.quote_ratio
      media_ratio := p.media_ratio
      engagement_consistency := consistency }

/-- Truncation of a rational toward zero, matching the Python int() cast
used to render the age of the target post. -/
def truncToInt (q : ℚ) : ℤ := q.num / (q.den : ℤ)

/-- Group the reversed digit list of a number into blocks of three
(helper for the thousands-separator rendering of the source). -/
def chunk3 : List Char → List (List Char)
  | [] => []
  | [a] => [[a]]
  | [a, b] => [[a, b]]
  | a :: b :: c :: rest => [a, b, c] :: chunk3 rest

/-- Decimal rendering of a natural number with thousands separators,
matching the Python format spec with a comma. -/
def commaGroup (n : ℕ) : String :=
  let groups := ((chunk3 (toString n).data.reverse).map List.reverse).reverse
  String.mk (List.intercalate [','] groups)

/-- The freshness test of ScorePredictor._analyze_context: the target post
carries a timestamp and its age is below 60 minutes. -/
def freshCheck (t : TweetData) : Bool :=
  match t.age_minutes with
  | some age => decide (age < 60)
  | none => false

/-- The context boost dict built by ScorePredictor._analyze_context: a
large-account bonus sets the click and profile-click keys, the freshness
bonus adds to the click key, and the reply-competition penalty adds a
negative delta to the click key. -/
def context_boost_of (t : TweetData) : BoostMap :=
  let m0 := noBoost
  let m1 := if 100000 < t.views_count then
      setBoost (setBoost m0 ActionName.p_click 0.25) ActionName.p_profile_click 0.20
    else m0
  let m2 := if freshCheck t then
      setBoost m1 ActionName.p_click (getBoost m1 ActionName.p_click + 0.15)
    else m1
  if 1000 < t.replies_count then
    setBoost m2 ActionName.p_click (getBoost m2 ActionName.p_click + (-0.10))
  else m2

/-- The adjustments dict built by ScorePredictor._analyze_context, in
insertion order. -/
def context_adjustments_of (t : TweetData) : List (String × String) :=
  (if 100000 < t.views_count then [("large_account_bonus", "+25%")] else []) ++
  (if freshCheck t then [("freshness_bonus", "+15%")] else []) ++
  (if 1000 < t.replies_count then [("reply_competition", "-10%")] else [])

/-- The recommendation strings built by ScorePredictor._analyze_context, in
insertion order. -/
def context_recommendations_of (t : TweetData) : List String :=
  (if 100000 < t.views_count then ["대형 계정 포스트로 높은 노출이 예상됩니다"] else []) ++
  (match t.age_minutes with
   | some age =>
       if age < 60 then
         ["포스트가 " ++ toString (truncToInt age) ++
           "분 전에 작성되어 신선도 보너스가 적용됩니다"]
       else []
   | none => []) ++
  (if 1000 < t.replies_count then
      ["현재 답글 " ++ commaGroup t.replies_count ++
        "개로 경쟁이 있으니 차별화된 관점을 제시하세요"]
    else [])

/-- Context information for reply or quote posts
(dataclass ContextInfo in score_predictor.py). -/
structure ContextInfo where
  target_post : TweetData
  context_adjustments : List (String × String)
  recommendations : List String

/-- ScorePredictor._analyze_context: none when the target post could not be
resolved, otherwise the context info and the boost dict. -/
def analyze_context (target : Option TweetData) :
    Option ContextInfo × Option BoostMap :=
  match target with
  | none => (none, none)
  | some t =>
      (some ⟨t, context_adjustments_of t, context_recommendations_of t⟩,
       some (context_boost_of t))

/-- ScorePredictor._generate_quick_tips: conditional tips in fixed rule
order (emoji, question, media, short or long content, hashtag count), capped
at five; the scores argument of the source is accepted and unused. -/
def generate_quick_tips (features : PostFeatures) (scores : PentagonScores) :
    List String :=
  let tips : List String :=
    (if !features.has_emoji then ["이모지를 추가하면 engagement +5% 예상"] else []) ++
    (if !features.has_question then ["질문 형태로 바꾸면 reply율 +15% 예상"] else []) ++
    (if !features.has_media then ["이미지를 추가하면 reach +20% 예상"] else []) ++
    (if features.char_count < 50 then ["내용을 조금 더 추가하면 dwell time 증가 예상"]
     else if 250 < features.char_count then ["내용을 간결하게 줄이면 완독률 상승 예상"]
     else []) ++
    (if features.hashtag_count = 0 then ["관련 해시태그 1-2개를 추가해보세요"]
     else if 3 < features.hashtag_count then ["해시태그를 3개 이하로 줄이면 품질 점수 상승"]
     else [])
  tips.take 5

/-- The default ProfileFeatures record substituted by
ScorePredictor._get_profile_features when the upstream profile fetch fails
or returns no profile. -/
def default_profile_features (username : String) : ProfileFeatures where
  username := username
  tweet_count := 0
  avg_engagement_rate := 0.02
  avg_likes := 100
  avg_retweets := 10
  avg_replies := 5
  avg_views := 1000
  retweet_ratio := 0.2
  quote_ratio := 0.1
  media_ratio := 0.5
  engagement_consistency := 0.7

/-- ScorePredictor._get_profile_features: the cached record when present,
the features of a successfully fetched profile otherwise, and the default
record when the fetch failed or carried no profile.  The outcome of the
upstream call is the Option argument. -/
noncomputable def get_profile_features (username : String)
    (cache : Option ProfileFeatures) (fetch : Option ProfileData) :
    ProfileFeatures :=
  match cache with
  | some f => f
  | none =>
      match fetch with
      | some p => extract_profile_features p
      | none => default_profile_features username

/-- Kind of draft handed to the predictor. -/
inductive PostType where
  | original
  | reply
  | quote
  | thread
deriving DecidableEq, Repr

/-- Result of a post analysis
(dataclass PostAnalysisResult in score_predictor.py). -/
structure PostAnalysisResult where
  scores : PentagonScores
  probabilities : ActionProbabilities
  features : PostFeatures
  quick_tips : List String
  context : Option ContextInfo

/-- ScorePredictor.predict: resolve the profile features (cache, fetch or
default), analyze the reply or quote context when a target URL was given,
run the scorer and generate the quick tips.  The regex-based extraction of
PostFeatures from the raw content is kept abstract: the predictor receives
the already-extracted features.  An absent boost dict acts as the empty
map, which scales nothing. -/
noncomputable def predict (username : String) (post_features : PostFeatures)
    (post_type : PostType) (target_post_url : Option String)
    (profile_cache : Option ProfileFeatures) (profile_fetch : Option ProfileData)
    (context_fetch : Option TweetData) : PostAnalysisResult :=
  let profile_features := get_profile_features username profile_cache profile_fetch
  let ctx : Option ContextInfo × Option BoostMap :=
    if (post_type = PostType.reply ∨ post_type = PostType.quote) ∧
        target_post_url ≠ none then
      analyze_context context_fetch
    else (none, none)
  let scored := analyze_post post_features profile_features (ctx.2.getD noBoost)
  { scores := scored.1
    probabilities := scored.2
    features := post_features
    quick_tips := generate_quick_tips post_features scored.1
    context := ctx.1 }

/-! Helper lemmas shared by several results. -/

lemma normalizeScore_nonneg (s : ℚ) : 0 ≤ normalizeScore s := by
  unfold normalizeScore
  exact le_min (by norm_num) (le_max_left 0 (s * 200))

lemma normalizeScore_le_100 (s : ℚ) : normalizeScore s ≤ 100 :=
  min_le_left 100 _

lemma clamp01_mem (v : ℚ) : 0 ≤ clamp01 v ∧ clamp01 v ≤ 1 :=
  ⟨le_max_left 0 _, max_le zero_le_one (min_le_left 1 v)⟩

/-- Claim C10 (confirmed): the quality dimension of calculate_scores is at
least 50 for every probability input, because the weighted quality sum is
clamped to be non-negative before the fixed baseline of 50 is added; no
combination of negative-action probabilities can push it below the
midpoint. -/
theorem quality_dimension_at_least_50 (p : ActionProbabilities) :
    50 ≤ (calculate_scores p).quality := by
  have h := normalizeScore_nonneg
    (p.p_favorite * 0.25 + p.p_dwell * 0.25 + p.p_not_interested * (-0.2) +
      p.p_block_author * (-0.15) + p.p_mute_author * (-0.1) +
      p.p_report * (-0.3))
  simp only [calculate_scores]
  linarith

/-- Claim C1, counterexample: with favorite and dwell probability both 1
(and every other probability 0) the quality dimension of calculate_scores
is 150, above the claimed upper bound of 100. -/
theorem quality_dimension_exceeds_100 :
    100 < (calculate_scores { p_favorite := 1, p_dwell := 1 }).quality := by
  norm_num [calculate_scores, normalizeScore]

/-- Claim C1 (corrected): for every ActionProbabilities input the reach,
engagement, virality and longevity dimensions of calculate_scores lie in
the interval from 0 to 100, while the quality dimension carries the fixed
baseline offset of 50 after its clamp and therefore lies in the interval
from 50 to 150 rather than from 0 to 100. -/
theorem pentagon_dimension_bounds (p : ActionProbabilities) :
    (0 ≤ (calculate_scores p).reach ∧ (calculate_scores p).reach ≤ 100) ∧
    (0 ≤ (calculate_scores p).engagement ∧
      (calculate_scores p).engagement ≤ 100) ∧
    (0 ≤ (calculate_scores p).virality ∧
      (calculate_scores p).virality ≤ 100) ∧
    (50 ≤ (calculate_scores p).quality ∧
      (calculate_scores p).quality ≤ 150) ∧
    (0 ≤ (calculate_scores p).longevity ∧
      (calculate_scores p).longevity ≤ 100) := by
  simp only [calculate_scores]
  refine ⟨⟨normalizeScore_nonneg _, normalizeScore_le_100 _⟩,
    ⟨normalizeScore_nonneg _, normalizeScore_le_100 _⟩,
    ⟨normalizeScore_nonneg _, normalizeScore_le_100 _⟩,
    ⟨?_, ?_⟩,
    ⟨normalizeScore_nonneg _, normalizeScore_le_100 _⟩⟩
  · have := normalizeScore_nonneg
      (p.p_favorite * 0.25 + p.p_dwell * 0.25 + p.p_not_interested * (-0.2) +
        p.p_block_author * (-0.15) + p.p_mute_author * (-0.1) +
        p.p_report * (-0.3))
    linarith
  · have := normalizeScore_le_100
      (p.p_favorite * 0.25 + p.p_dwell * 0.25 + p.p_not_interested * (-0.2) +
        p.p_block_author * (-0.15) + p.p_mute_author * (-0.1) +
        p.p_report * (-0.3))
    linarith

/-- Claim C2 (confirmed): every one of the 14 fields returned by
estimate_probabilities lies in the unit interval for every post-feature,
profile-feature and context-boost input, because the final step clamps each
field. -/
theorem estimate_probabilities_unit_interval (pf : PostFeatures)
    (prof : ProfileFeatures) (cb : BoostMap) :
    (0 ≤ (estimate_probabilities pf prof cb).p_favorite ∧
      (estimate_probabilities pf prof cb).p_favorite ≤ 1) ∧
    (0 ≤ (estimate_probabilities pf prof cb).p_reply ∧
      (estimate_probabilities pf prof cb).p_reply ≤ 1) ∧
    (0 ≤ (estimate_probabilities pf prof cb).p_repost ∧
      (estimate_probabilities pf prof cb).p_repost ≤ 1) ∧
    (0 ≤ (estimate_probabilities pf prof cb).p_quote ∧
      (estimate_probabilities pf prof cb).p_quote ≤ 1) ∧
    (0 ≤ (estimate_probabilities pf prof cb).p_click ∧
      (estimate_probabilities pf prof cb).p_click ≤ 1) ∧
    (0 ≤ (estimate_probabilities pf prof cb).p_profile_click ∧
      (estimate_probabilities pf prof cb).p_profile_click ≤ 1) ∧
    (0 ≤ (estimate_probabilities pf prof cb).p_share ∧
      (estimate_probabilities pf prof cb).p_share ≤ 1) ∧
    (0 ≤ (estimate_probabilities pf prof cb).p_dwell ∧
      (estimate_probabilities pf prof cb).p_dwell ≤ 1) ∧
    (0 ≤ (estimate_probabilities pf prof cb).p_video_view ∧
      (estimate_probabilities pf prof cb).p_video_view ≤ 1) ∧
    (0 ≤ (estimate_probabilities pf prof cb).p_follow_author ∧
      (estimate_probabilities pf prof cb).p_follow_author ≤ 1) ∧
    (0 ≤ (estimate_probabilities pf prof cb).p_not_interested ∧
      (estimate_probabilities pf prof cb).p_not_interested ≤ 1) ∧
    (0 ≤ (estimate_probabilities pf prof cb).p_block_author ∧
      (estimate_probabilities pf prof cb).p_block_author ≤ 1) ∧
    (0 ≤ (estimate_probabilities pf prof cb).p_mute_author ∧
      (estimate_probabilities pf prof cb).p_mute_author ≤ 1) ∧
    (0 ≤ (estimate_probabilities pf prof cb).p_report ∧
      (estimate_probabilities pf prof cb).p_report ≤ 1) := by
  simp only [estimate_probabilities, clampAll]
  exact ⟨clamp01_mem _, clamp01_mem _, clamp01_mem _, clamp01_mem _,
    clamp01_mem _, clamp01_mem _, clamp01_mem _, clamp01_mem _,
    clamp01_mem _, clamp01_mem _, clamp01_mem _, clamp01_mem _,
    clamp01_mem _, clamp01_mem _⟩

/-- Claim C4 (confirmed): the overall score is the fixed convex combination
of the five dimensions with weights 0.25, 0.25, 0.20, 0.15 and 0.15, the
weights sum to 1, and there is a score record on which the overall score
differs from the simple average of the five dimensions. -/
theorem overall_fixed_convex_combination :
    (∀ s : PentagonScores,
      s.overall = 0.25 * s.reach + 0.25 * s.engagement + 0.20 * s.virality +
        0.15 * s.quality + 0.15 * s.longevity) ∧
    ((0.25 : ℚ) + 0.25 + 0.20 + 0.15 + 0.15 = 1) ∧
    (∃ s : PentagonScores,
      s.overall ≠
        (s.reach + s.engagement + s.virality + s.quality + s.longevity) / 5) := by
  refine ⟨fun s => by simp only [PentagonScores.overall]; ring, by norm_num, ?_⟩
  refine ⟨⟨100, 0, 0, 0, 0⟩, ?_⟩
  norm_num [PentagonScores.overall]

/-- A profile-feature record whose fields are all zero: the output of the
history extractor on an empty history. -/
def zeroHistoryProfile : ProfileFeatures where
  username := "zero"
  tweet_count := 0
  avg_engagement_rate := 0
  avg_likes := 0
  avg_retweets := 0
  avg_replies := 0
  avg_views := 0
  retweet_ratio := 0
  quote_ratio := 0
  media_ratio := 0
  engagement_consistency := 0

/-- A draft with no engagement-boosting features: empty text, no question,
no call to action, no emoji, no media, no hashtags. -/
def featurelessPost : PostFeatures where
  char_count := 0
  word_count := 0
  sentence_count := 0
  has_question := false
  has_cta := false
  has_emoji := false
  emoji_count := 0
  has_media := false
  media_type := none
  hashtag_count := 0
  mention_count := 0
  has_url := false
  is_thread_starter := false
  is_quote := false

/-- Claim C3, counterexample: on the all-zero profile and a featureless
draft, estimate_probabilities returns exactly zero for the favorite, reply,
repost, quote and share probabilities, so they are not strictly greater
than zero and no floor is applied to them. -/
theorem zero_history_floors_violated :
    ¬ (0 < (estimate_probabilities featurelessPost zeroHistoryProfile
          noBoost).p_favorite ∧
       0 < (estimate_probabilities featurelessPost zeroHistoryProfile
          noBoost).p_reply ∧
       0 < (estimate_probabilities featurelessPost zeroHistoryProfile
          noBoost).p_repost ∧
       0 < (estimate_probabilities featurelessPost zeroHistoryProfile
          noBoost).p_quote ∧
       0 < (estimate_probabilities featurelessPost zeroHistoryProfile
          noBoost).p_share) := by
  norm_num [estimate_probabilities, estimateRaw, clampAll, clamp01,
    applyContextBoost, applyBoost, noBoost, featurelessPost, zeroHistoryProfile,
    PostFeatures.optimal_length, min_def, max_def]

/-- Claim C3 (corrected): the source applies no floor; for a zero-history
profile and a featureless draft the engagement-seeded probabilities
(favorite, reply, repost, quote, share) are exactly zero, while only the
fixed constant seeds (click 0.20, profile-click 0.10, dwell 0.30 and
follow-author 0.005) remain strictly positive, so the vector does not
collapse entirely to zero but the engagement and virality probabilities
do. -/
theorem zero_history_seeded_probs :
    (estimate_probabilities featurelessPost zeroHistoryProfile
        noBoost).p_favorite = 0 ∧
    (estimate_probabilities featurelessPost zeroHistoryProfile
        noBoost).p_reply = 0 ∧
    (estimate_probabilities featurelessPost zeroHistoryProfile
        noBoost).p_repost = 0 ∧
    (estimate_probabilities featurelessPost zeroHistoryProfile
        noBoost).p_quote = 0 ∧
    (estimate_probabilities featurelessPost zeroHistoryProfile
        noBoost).p_share = 0 ∧
    (estimate_probabilities featurelessPost zeroHistoryProfile
        noBoost).p_click = 0.20 ∧
    (estimate_probabilities featurelessPost zeroHistoryProfile
        noBoost).p_profile_click = 0.10 ∧
    (estimate_probabilities featurelessPost zeroHistoryProfile
        noBoost).p_dwell = 0.30 ∧
    (estimate_probabilities featurelessPost zeroHistoryProfile
        noBoost).p_follow_author = 0.005 := by
  norm_num [estimate_probabilities, estimateRaw, clampAll, clamp01,
    applyContextBoost, applyBoost, noBoost, featurelessPost, zeroHistoryProfile,
    PostFeatures.optimal_length, min_def, max_def]

/-- A post-feature record with a given character count and every other
feature absent, used to evaluate the optimal-length curve. -/
def postOfLength (n : ℕ) : PostFeatures where
  char_count := n
  word_count := 0
  sentence_count := 0
  has_question := false
  has_cta := false
  has_emoji := false
  emoji_count := 0
  has_media := false
  media_type := none
  hashtag_count := 0
  mention_count := 0
  has_url := false
  is_thread_starter := false
  is_quote := false

/-- Claim C5 (confirmed): optimal_length equals 1 on the sweet-spot band of
70 to 200 characters, is strictly increasing in the character count below
the band, and is non-increasing above the band with the lower floor 0.5. -/
theorem optimal_length_piecewise (f g : PostFeatures) :
    (70 ≤ f.char_count → f.char_count ≤ 200 → f.optimal_length = 1) ∧
    (f.char_count < g.char_count → g.char_count ≤ 70 →
      f.optimal_length < g.optimal_length) ∧
    (200 < f.char_count → f.char_count ≤ g.char_count →
      g.optimal_length ≤ f.optimal_length) ∧
    (200 < f.char_count → (0.5 : ℚ) ≤ f.optimal_length) := by
  refine ⟨?_, ?_, ?_, ?_⟩
  · intro h1 h2
    simp only [PostFeatures.optimal_length]
    rw [if_pos ⟨h1, h2⟩]
  · intro hlt hle
    have hf70 : f.char_count < 70 := lt_of_lt_of_le hlt hle
    have hcast : (f.char_count : ℚ) < g.char_count := by exact_mod_cast hlt
    simp only [PostFeatures.optimal_length]
    rcases eq_or_lt_of_le hle with heq | hlt70
    · rw [if_neg (by omega), if_pos hf70, if_pos (by omega)]
      rw [div_lt_one (by norm_num)]
      have : (f.char_count : ℚ) < 70 := by exact_mod_cast hf70
      linarith
    · rw [if_neg (by omega), if_pos hf70, if_neg (by omega), if_pos hlt70]
      linarith
  · intro h200 hle
    have hg200 : 200 < g.char_count := lt_of_lt_of_le h200 hle
    have hcast : (f.char_count : ℚ) ≤ g.char_count := by exact_mod_cast hle
    simp only [PostFeatures.optimal_length]
    rw [if_neg (by omega), if_neg (by omega), if_neg (by omega),
      if_neg (by omega)]
    exact max_le_max le_rfl (by linarith)
  · intro h200
    simp only [PostFeatures.optimal_length]
    rw [if_neg (by omega), if_neg (by omega)]
    exact le_max_left _ _

/-- Witness for claim C5: the curve at concrete character counts, obtained
from the general theorem with its hypotheses discharged at 100 (inside the
band), 35 and 50 (below the band), and 250 against 300 (above the band). -/
theorem optimal_length_piecewise_witness :
    (postOfLength 100).optimal_length = 1 ∧
    (postOfLength 35).optimal_length < (postOfLength 50).optimal_length ∧
    (postOfLength 300).optimal_length ≤ (postOfLength 250).optimal_length ∧
    (0.5 : ℚ) ≤ (postOfLength 300).optimal_length :=
  ⟨(optimal_length_piecewise (postOfLength 100) (postOfLength 100)).1
      (by decide) (by decide),
   (optimal_length_piecewise (postOfLength 35) (postOfLength 50)).2.1
      (by decide) (by decide),
   (optimal_length_piecewise (postOfLength 250) (postOfLength 300)).2.2.1
      (by decide) (by decide),
   (optimal_length_piecewise (postOfLength 300) (postOfLength 300)).2.2.2
      (by decide)⟩

/-- A reply target from a large account (200000 views), 15 minutes old,
with little reply competition. -/
def largeFreshTarget : TweetData where
  tweet_id := "t1"
  username := "big"
  content := "target"
  likes_count := 0
  retweets_count := 0
  replies_count := 50
  views_count := 200000
  age_minutes := some 15

/-- A reply target from a large account, 15 minutes old, with heavy reply
competition (8200 replies). -/
def largeFreshBusyTarget : TweetData where
  tweet_id := "t2"
  username := "big"
  content := "target"
  likes_count := 0
  retweets_count := 0
  replies_count := 8200
  views_count := 200000
  age_minutes := some 15

/-- Claim C6 (confirmed): the click-probability boost of the context
analyzer is additive over the conditions that fire; alone, the
large-account condition contributes 0.25 and the freshness condition 0.15,
together they give 0.25 plus 0.15, and the reply-competition penalty adds a
further negative 0.10 on the same key. -/
theorem context_click_boost_additive (t : TweetData) :
    (100000 < t.views_count → freshCheck t = true →
      ¬ 1000 < t.replies_count →
      context_boost_of t ActionName.p_click = some (0.25 + 0.15)) ∧
    (100000 < t.views_count → freshCheck t = false →
      ¬ 1000 < t.replies_count →
      context_boost_of t ActionName.p_click = some 0.25) ∧
    (¬ 100000 < t.views_count → freshCheck t = true →
      ¬ 1000 < t.replies_count →
      context_boost_of t ActionName.p_click = some 0.15) ∧
    (100000 < t.views_count → freshCheck t = true →
      1000 < t.replies_count →
      context_boost_of t ActionName.p_click =
        some (0.25 + 0.15 + (-0.10))) := by
  refine ⟨?_, ?_, ?_, ?_⟩ <;> intro h1 h2 h3 <;>
    simp [context_boost_of, h1, h2, h3, setBoost, getBoost, noBoost]

/-- Witness for claim C6: at the concrete targets, the combined
large-account and freshness click boost is exactly the sum 0.25 plus 0.15,
and with the reply-competition penalty it is 0.25 plus 0.15 minus 0.10. -/
theorem context_click_boost_additive_witness :
    context_boost_of largeFreshTarget ActionName.p_click =
      some (0.25 + 0.15) ∧
    context_boost_of largeFreshBusyTarget ActionName.p_click =
      some (0.25 + 0.15 + (-0.10)) :=
  ⟨(context_click_boost_additive largeFreshTarget).1
      (by decide) (by decide) (by decide),
   (context_click_boost_additive largeFreshBusyTarget).2.2.2
      (by decide) (by decide) (by decide)⟩

/-- The seven tip descriptions in the fixed rule-priority order of
ScorePredictor._generate_quick_tips: emoji, question, media, very short,
very long, zero hashtags, too many hashtags. -/
def quickTipOrder : List String :=
  ["이모지를 추가하면 engagement +5% 예상",
   "질문 형태로 바꾸면 reply율 +15% 예상",
   "이미지를 추가하면 reach +20% 예상",
   "내용을 조금 더 추가하면 dwell time 증가 예상",
   "내용을 간결하게 줄이면 완독률 상승 예상",
   "관련 해시태그 1-2개를 추가해보세요",
   "해시태그를 3개 이하로 줄이면 품질 점수 상승"]

lemma mem_ite_singleton_cases {α : Type} {x y : α} {c : Prop} [Decidable c]
    (h : x ∈ (if c then [y] else [])) : c ∧ x = y := by
  revert h
  split
  · intro h
    exact ⟨by assumption, by simpa using h⟩
  · intro h
    simp at h

lemma mem_ite_pair_cases {α : Type} {x y z : α} {c d : Prop} [Decidable c]
    [Decidable d] (h : x ∈ (if c then [y] else if d then [z] else [])) :
    (c ∧ x = y) ∨ (d ∧ x = z) := by
  revert h
  split
  · intro h
    exact Or.inl ⟨by assumption, by simpa using h⟩
  · split
    · intro h
      exact Or.inr ⟨by assumption, by simpa using h⟩
    · intro h
      simp at h

lemma chunks_sublist {α : Type} (c1 c2 c3 c4 c5 c6 c7 : Prop)
    [Decidable c1] [Decidable c2] [Decidable c3] [Decidable c4] [Decidable c5]
    [Decidable c6] [Decidable c7] (t1 t2 t3 t4 t5 t6 t7 : α) :
    List.Sublist
      ((if c1 then [t1] else []) ++ (if c2 then [t2] else []) ++
        (if c3 then [t3] else []) ++
        (if c4 then [t4] else if c5 then [t5] else []) ++
        (if c6 then [t6] else if c7 then [t7] else []))
      [t1, t2, t3, t4, t5, t6, t7] := by
  split_ifs <;>
    simp only [List.append_nil, List.nil_append, List.cons_append] <;>
    (repeat first
      | exact List.nil_sublist _
      | exact List.Sublist.refl _
      | apply List.Sublist.cons₂
      | apply List.Sublist.cons)

/-- Every tip emitted by the generator comes from one of the seven rules,
with the precondition of that rule holding for the inspected features. -/
lemma mem_tips_cases (f : PostFeatures) (s : PentagonScores) (x : String)
    (hx : x ∈ generate_quick_tips f s) :
    ((!f.has_emoji) = true ∧ x = "이모지를 추가하면 engagement +5% 예상") ∨
    ((!f.has_question) = true ∧ x = "질문 형태로 바꾸면 reply율 +15% 예상") ∨
    ((!f.has_media) = true ∧ x = "이미지를 추가하면 reach +20% 예상") ∨
    (f.char_count < 50 ∧ x = "내용을 조금 더 추가하면 dwell time 증가 예상") ∨
    (250 < f.char_count ∧ x = "내용을 간결하게 줄이면 완독률 상승 예상") ∨
    (f.hashtag_count = 0 ∧ x = "관련 해시태그 1-2개를 추가해보세요") ∨
    (3 < f.hashtag_count ∧ x = "해시태그를 3개 이하로 줄이면 품질 점수 상승") := by
  simp only [generate_quick_tips] at hx
  have hm := List.take_subset 5 _ hx
  simp only [List.mem_append] at hm
  rcases hm with ((((h1 | h2) | h3) | h4) | h5)
  · exact Or.inl (mem_ite_singleton_cases h1)
  · exact Or.inr (Or.inl (mem_ite_singleton_cases h2))
  · exact Or.inr (Or.inr (Or.inl (mem_ite_singleton_cases h3)))
  · rcases mem_ite_pair_cases h4 with h | h
    · exact Or.inr (Or.inr (Or.inr (Or.inl h)))
    · exact Or.inr (Or.inr (Or.inr (Or.inr (Or.inl h))))
  · rcases mem_ite_pair_cases h5 with h | h
    · exact Or.inr (Or.inr (Or.inr (Or.inr (Or.inr (Or.inl h)))))
    · exact Or.inr (Or.inr (Or.inr (Or.inr (Or.inr (Or.inr h)))))

/-- Claim C7 (confirmed): the tip generator returns at most five tips, the
returned list is a sublist of the fixed rule-priority order (emoji,
question, media, very short, very long, zero hashtags, too many hashtags),
and a rule whose precondition is already satisfied by the content emits no
tip. -/
theorem quick_tips_cap_order_skip (f : PostFeatures) (s : PentagonScores) :
    (generate_quick_tips f s).length ≤ 5 ∧
    List.Sublist (generate_quick_tips f s) quickTipOrder ∧
    (f.has_emoji = true →
      "이모지를 추가하면 engagement +5% 예상" ∉ generate_quick_tips f s) ∧
    (f.has_question = true →
      "질문 형태로 바꾸면 reply율 +15% 예상" ∉ generate_quick_tips f s) ∧
    (f.has_media = true →
      "이미지를 추가하면 reach +20% 예상" ∉ generate_quick_tips f s) ∧
    (50 ≤ f.char_count →
      "내용을 조금 더 추가하면 dwell time 증가 예상" ∉ generate_quick_tips f s) ∧
    (f.char_count ≤ 250 →
      "내용을 간결하게 줄이면 완독률 상승 예상" ∉ generate_quick_tips f s) ∧
    (f.hashtag_count ≠ 0 →
      "관련 해시태그 1-2개를 추가해보세요" ∉ generate_quick_tips f s) ∧
    (f.hashtag_count ≤ 3 →
      "해시태그를 3개 이하로 줄이면 품질 점수 상승" ∉ generate_quick_tips f s) := by
  refine ⟨?_, ?_, ?_, ?_, ?_, ?_, ?_, ?_, ?_⟩
  · simp only [generate_quick_tips]
    exact List.length_take_le 5 _
  · simp only [generate_quick_tips, quickTipOrder]
    exact (List.take_sublist 5 _).trans
      (chunks_sublist _ _ _ _ _ _ _ _ _ _ _ _ _ _)
  all_goals
    intro h hmem
  all_goals
    rcases mem_tips_cases f s _ hmem with
      ⟨hc, he⟩ | ⟨hc, he⟩ | ⟨hc, he⟩ | ⟨hc, he⟩ | ⟨hc, he⟩ | ⟨hc, he⟩ | ⟨hc, he⟩ <;>
    first
      | exact absurd he (by decide)
      | simp [h] at hc
      | omega

/-- A draft that already satisfies every tip precondition: emoji, question
and media present, 100 characters, two hashtags. -/
def fullyOptimizedPost : PostFeatures where
  char_count := 100
  word_count := 15
  sentence_count := 2
  has_question := true
  has_cta := false
  has_emoji := true
  emoji_count := 1
  has_media := true
  media_type := some MediaType.image
  hashtag_count := 2
  mention_count := 0
  has_url := false
  is_thread_starter := false
  is_quote := false

/-- Witness for claim C7: on a draft satisfying every precondition, the cap
holds and none of the seven tips is emitted. -/
theorem quick_tips_cap_order_skip_witness :
    (generate_quick_tips fullyOptimizedPost ⟨0, 0, 0, 0, 0⟩).length ≤ 5 ∧
    "이모지를 추가하면 engagement +5% 예상" ∉
      generate_quick_tips fullyOptimizedPost ⟨0, 0, 0, 0, 0⟩ ∧
    "질문 형태로 바꾸면 reply율 +15% 예상" ∉
      generate_quick_tips fullyOptimizedPost ⟨0, 0, 0, 0, 0⟩ ∧
    "이미지를 추가하면 reach +20% 예상" ∉
      generate_quick_tips fullyOptimizedPost ⟨0, 0, 0, 0, 0⟩ ∧
    "내용을 조금 더 추가하면 dwell time 증가 예상" ∉
      generate_quick_tips fullyOptimizedPost ⟨0, 0, 0, 0, 0⟩ ∧
    "내용을 간결하게 줄이면 완독률 상승 예상" ∉
      generate_quick_tips fullyOptimizedPost ⟨0, 0, 0, 0, 0⟩ ∧
    "관련 해시태그 1-2개를 추가해보세요" ∉
      generate_quick_tips fullyOptimizedPost ⟨0, 0, 0, 0, 0⟩ ∧
    "해시태그를 3개 이하로 줄이면 품질 점수 상승" ∉
      generate_quick_tips fullyOptimizedPost ⟨0, 0, 0, 0, 0⟩ :=
  ⟨(quick_tips_cap_order_skip fullyOptimizedPost ⟨0, 0, 0, 0, 0⟩).1,
   (quick_tips_cap_order_skip fullyOptimizedPost ⟨0, 0, 0, 0, 0⟩).2.2.1
      (by decide),
   (quick_tips_cap_order_skip fullyOptimizedPost ⟨0, 0, 0, 0, 0⟩).2.2.2.1
      (by decide),
   (quick_tips_cap_order_skip fullyOptimizedPost ⟨0, 0, 0, 0, 0⟩).2.2.2.2.1
      (by decide),
   (quick_tips_cap_order_skip fullyOptimizedPost ⟨0, 0, 0, 0, 0⟩).2.2.2.2.2.1
      (by decide),
   (quick_tips_cap_order_skip fullyOptimizedPost ⟨0, 0, 0, 0, 0⟩).2.2.2.2.2.2.1
      (by decide),
   (quick_tips_cap_order_skip fullyOptimizedPost ⟨0, 0, 0, 0, 0⟩).2.2.2.2.2.2.2.1
      (by decide),
   (quick_tips_cap_order_skip fullyOptimizedPost ⟨0, 0, 0, 0, 0⟩).2.2.2.2.2.2.2.2
      (by decide)⟩

/-- Claim C8, counterexample: on an empty history the extractor returns the
all-zero record, so the consistency score is 0 and not the claimed default
of 1. -/
theorem empty_history_consistency_not_one :
    (extract_profile_features ⟨"empty", []⟩).engagement_consistency ≠ 1 := by
  simp [extract_profile_features]

/-- Claim C8 (corrected): the consistency score equals
1 / (1 + stddev(engagement rates)) whenever the history holds two or more
posts, and it defaults to 1 for a history of exactly one post; on an empty
history, however, the extractor returns the all-zero record, so the
consistency is 0 rather than 1. -/
theorem engagement_consistency_formula :
    (∀ p : ProfileData, 2 ≤ p.tweets.length →
      (extract_profile_features p).engagement_consistency =
        1 / (1 + Real.sqrt ((engagement_variance p : ℚ) : ℝ))) ∧
    (∀ p : ProfileData, p.tweets.length = 1 →
      (extract_profile_features p).engagement_consistency = 1) ∧
    (∀ p : ProfileData, p.tweets.length = 0 →
      (extract_profile_features p).engagement_consistency = 0) := by
  refine ⟨?_, ?_, ?_⟩
  · intro p hp
    have hne : p.tweets ≠ [] := by
      intro h
      rw [h] at hp
      simp at hp
    have hlen : 1 < (engagement_rates p).length := by
      simp only [engagement_rates, List.length_map]
      omega
    simp only [extract_profile_features]
    rw [if_neg (by simpa using hne), if_pos hlen]
  · intro p hp
    have hne : p.tweets ≠ [] := by
      intro h
      rw [h] at hp
      simp at hp
    have hlen : ¬ 1 < (engagement_rates p).length := by
      simp only [engagement_rates, List.length_map]
      omega
    simp only [extract_profile_features]
    rw [if_neg (by simpa using hne), if_neg hlen]
  · intro p hp
    rw [List.length_eq_zero] at hp
    simp [extract_profile_features, hp]

/-- A history of two posts with identical engagement counts, used to
instantiate the consistency formula. -/
def twoPostProfile : ProfileData where
  username := "steady"
  tweets :=
    [{ tweet_id := "1", username := "steady", content := "a",
       likes_count := 100, retweets_count := 10, replies_count := 5,
       views_count := 1000 },
     { tweet_id := "2", username := "steady", content := "b",
       likes_count := 100, retweets_count := 10, replies_count := 5,
       views_count := 1000 }]

/-- Witness for claim C8: the two-post history satisfies the length
hypothesis and its consistency is given by the stddev formula. -/
theorem engagement_consistency_formula_witness :
    2 ≤ twoPostProfile.tweets.length ∧
    (extract_profile_features twoPostProfile).engagement_consistency =
      1 / (1 + Real.sqrt ((engagement_variance twoPostProfile : ℚ) : ℝ)) :=
  ⟨by decide, engagement_consistency_formula.1 twoPostProfile (by decide)⟩

/-- Claim C9 (confirmed): when the upstream profile fetch fails or returns
no profile (and nothing is cached), the predictor does not fail: it
substitutes the documented default ProfileFeatures record and returns the
complete analysis result computed from that default. -/
theorem profile_fetch_failure_uses_default (u : String) (pf : PostFeatures)
    (pt : PostType) (url : Option String) (cf : Option TweetData) :
    get_profile_features u none none = default_profile_features u ∧
    (let ctx : Option ContextInfo × Option BoostMap :=
      if (pt = PostType.reply ∨ pt = PostType.quote) ∧ url ≠ none then
        analyze_context cf
      else (none, none)
     let scored := analyze_post pf (default_profile_features u)
       (ctx.2.getD noBoost)
     predict u pf pt url none none cf =
       { scores := scored.1
         probabilities := scored.2
         features := pf
         quick_tips := generate_quick_tips pf scored.1
         context := ctx.1 }) :=
  ⟨rfl, rfl⟩

end XEO
